import Mathlib

/-!
# Verification of the povmap repository

Shallow embedding of the povmap sources:
* `src/types.ts`           — the data model (`ArrowSelection`, `MapStateSnapshot`, `PovResult`, …)
* `src/utils/storage.ts`   — localStorage-backed history store (`loadHistory`, `saveHistory`,
                             `appendResult`, `removeResult`, `clearHistory`)
* `src/hooks/useHistory.ts`— the React hook keeping an in-memory list synchronized with storage
* `src/app/api/generate/route.ts` — the generation endpoint (`POST`), its mock-image
                             synthesis (`synthMockImage`, `escapeHtml`) and the
                             primary-SDK / REST-fallback call structure
* `src/components/MapView.tsx` — the arrow-overlay geometry (`drawOverlay`) and the
                             click-to-bearing computation (`onMapClick`)

JavaScript numbers are modelled as `ℚ` where the code only stores and re-reads them, and as
`ℝ` for the trigonometric geometry.  Strings are Lean `String`s (lists of code points; the
sources only manipulate them at whole-character granularity in the fragments modelled here).
`JSON.stringify`/`JSON.parse` are modelled at the level of a JSON value tree: a stored blob is
either a well-formed JSON document (carrying its value tree) or corrupt text on which
`JSON.parse` throws.
-/

/-- A JSON value tree, the image of `JSON.parse`.  Numbers are modelled as `ℚ`
(every finite JavaScript number is rational). -/
inductive Json where
  | null : Json
  | bool (b : Bool) : Json
  | num (q : ℚ) : Json
  | str (s : String) : Json
  | arr (elems : List Json) : Json
  | obj (fields : List (String × Json)) : Json

/-- Property access `o[k]` on a parsed JSON object: first field with the given key. -/
def jlookup (fields : List (String × Json)) (k : String) : Option Json :=
  (fields.find? (fun p => p.1 == k)).map (fun p => p.2)

/-- `Array.isArray` on a JSON value. -/
def jsonIsArray : Json → Bool
  | .arr _ => true
  | _ => false

/-- `src/types.ts` `ArrowSelection`: a chosen viewpoint and looking direction. -/
structure ArrowSelection where
  latitude : ℚ
  longitude : ℚ
  bearingDeg : ℚ
  lengthMeters : ℚ
deriving DecidableEq

/-- `src/types.ts` `Bounds`. -/
structure Bounds where
  north : ℚ
  south : ℚ
  east : ℚ
  west : ℚ
deriving DecidableEq

/-- The `{latitude, longitude}` center object of `MapStateSnapshot`. -/
structure LatLng where
  latitude : ℚ
  longitude : ℚ
deriving DecidableEq

/-- `src/types.ts` `MapStateSnapshot`. -/
structure MapStateSnapshot where
  zoom : ℚ
  center : LatLng
  bounds : Bounds
  style : String
deriving DecidableEq

/-- `src/types.ts` `PovRequest`. -/
structure PovRequest where
  prompt : String
  arrow : ArrowSelection
  map : MapStateSnapshot
deriving DecidableEq

/-- `src/types.ts` `PovResult`: one history entry.  The two optional fields model the
optional `model?` and `safetyLabels?` properties (absent = `undefined`, dropped by
`JSON.stringify`). -/
structure PovResult where
  id : String
  createdAt : ℚ
  request : PovRequest
  mapSnapshotDataUrl : String
  imageDataUrl : String
  model : Option String
  safetyLabels : Option (List String)
deriving DecidableEq

/-- `JSON.stringify` image of an `ArrowSelection` (field order is property-insertion order). -/
def encodeArrow (a : ArrowSelection) : Json :=
  .obj [("latitude", .num a.latitude), ("longitude", .num a.longitude),
        ("bearingDeg", .num a.bearingDeg), ("lengthMeters", .num a.lengthMeters)]

/-- `JSON.stringify` image of a `Bounds`. -/
def encodeBounds (b : Bounds) : Json :=
  .obj [("north", .num b.north), ("south", .num b.south),
        ("east", .num b.east), ("west", .num b.west)]

/-- `JSON.stringify` image of the center object. -/
def encodeLatLng (c : LatLng) : Json :=
  .obj [("latitude", .num c.latitude), ("longitude", .num c.longitude)]

/-- `JSON.stringify` image of a `MapStateSnapshot`. -/
def encodeMapState (m : MapStateSnapshot) : Json :=
  .obj [("zoom", .num m.zoom), ("center", encodeLatLng m.center),
        ("bounds", encodeBounds m.bounds), ("style", .str m.style)]

/-- `JSON.stringify` image of a `PovRequest`. -/
def encodeRequest (r : PovRequest) : Json :=
  .obj [("prompt", .str r.prompt), ("arrow", encodeArrow r.arrow),
        ("map", encodeMapState r.map)]

/-- A key/value pair that `JSON.stringify` emits only when the property is not `undefined`. -/
def optField (k : String) : Option Json → List (String × Json)
  | none => []
  | some j => [(k, j)]

/-- `JSON.stringify` image of a `PovResult`, with the field order of the object literal
built in `MapView.generate` and optional fields dropped when `undefined`. -/
def encodePovResult (r : PovResult) : Json :=
  .obj ([("id", .str r.id), ("createdAt", .num r.createdAt),
         ("request", encodeRequest r.request),
         ("mapSnapshotDataUrl", .str r.mapSnapshotDataUrl),
         ("imageDataUrl", .str r.imageDataUrl)]
        ++ optField "model" (r.model.map .str)
        ++ optField "safetyLabels" (r.safetyLabels.map (fun ls => .arr (ls.map .str))))

/-- Read a JSON string. -/
def asStr : Json → Option String
  | .str s => some s
  | _ => none

/-- Read a JSON number. -/
def asNum : Json → Option ℚ
  | .num q => some q
  | _ => none

/-- Read each element of a JSON list as a string. -/
def strListM : List Json → Option (List String)
  | [] => some []
  | x :: xs => do
    let s ← asStr x
    let rest ← strListM xs
    pure (s :: rest)

/-- Read a JSON array of strings. -/
def asStrList : Json → Option (List String)
  | .arr xs => strListM xs
  | _ => none

/-- Recover an `ArrowSelection` from its JSON image. -/
def decodeArrow (j : Json) : Option ArrowSelection :=
  match j with
  | .obj fs => do
    let la ← jlookup fs "latitude" >>= asNum
    let lo ← jlookup fs "longitude" >>= asNum
    let b ← jlookup fs "bearingDeg" >>= asNum
    let len ← jlookup fs "lengthMeters" >>= asNum
    pure ⟨la, lo, b, len⟩
  | _ => none

/-- Recover a `Bounds` from its JSON image. -/
def decodeBounds (j : Json) : Option Bounds :=
  match j with
  | .obj fs => do
    let n ← jlookup fs "north" >>= asNum
    let s ← jlookup fs "south" >>= asNum
    let e ← jlookup fs "east" >>= asNum
    let w ← jlookup fs "west" >>= asNum
    pure ⟨n, s, e, w⟩
  | _ => none

/-- Recover the center object from its JSON image. -/
def decodeLatLng (j : Json) : Option LatLng :=
  match j with
  | .obj fs => do
    let la ← jlookup fs "latitude" >>= asNum
    let lo ← jlookup fs "longitude" >>= asNum
    pure ⟨la, lo⟩
  | _ => none

/-- Recover a `MapStateSnapshot` from its JSON image. -/
def decodeMapState (j : Json) : Option MapStateSnapshot :=
  match j with
  | .obj fs => do
    let z ← jlookup fs "zoom" >>= asNum
    let c ← jlookup fs "center" >>= decodeLatLng
    let b ← jlookup fs "bounds" >>= decodeBounds
    let st ← jlookup fs "style" >>= asStr
    pure ⟨z, c, b, st⟩
  | _ => none

/-- Recover a `PovRequest` from its JSON image. -/
def decodeRequest (j : Json) : Option PovRequest :=
  match j with
  | .obj fs => do
    let p ← jlookup fs "prompt" >>= asStr
    let a ← jlookup fs "arrow" >>= decodeArrow
    let m ← jlookup fs "map" >>= decodeMapState
    pure ⟨p, a, m⟩
  | _ => none

/-- Recover a `PovResult` from its JSON image (optional properties read leniently, as
JavaScript property access yields `undefined` when the key is absent). -/
def decodePovResult (j : Json) : Option PovResult :=
  match j with
  | .obj fs => do
    let i ← jlookup fs "id" >>= asStr
    let c ← jlookup fs "createdAt" >>= asNum
    let rq ← jlookup fs "request" >>= decodeRequest
    let ms ← jlookup fs "mapSnapshotDataUrl" >>= asStr
    let im ← jlookup fs "imageDataUrl" >>= asStr
    pure ⟨i, c, rq, ms, im, (jlookup fs "model").bind asStr,
          (jlookup fs "safetyLabels").bind asStrList⟩
  | _ => none

/-!
## Storage model (`src/utils/storage.ts`)

`window.localStorage` holds at the key `"povmap:history:v1"` either nothing (`none`) or a
string.  A stored string is modelled as either well-formed JSON (carrying the value
`JSON.parse` returns) or corrupt text (`JSON.parse` throws).  `JSON.stringify` of a list
always yields a well-formed JSON array document.
-/

/-- A string sitting in localStorage: well-formed JSON carrying its parsed value, or
corrupt text on which `JSON.parse` throws (this also covers the empty string, which the
source rejects up front via `if (!raw)`). -/
inductive StoredBlob where
  | valid (j : Json) : StoredBlob
  | corrupt (raw : String) : StoredBlob

/-- The localStorage slot under the history key: `none` when the key is absent. -/
def Storage : Type := Option StoredBlob

/-- `storage.ts` `loadHistory`: missing key, unparsable text, and non-array JSON all
yield `[]`; a parsed array is returned as-is (the source casts, it does not validate
elements). -/
def loadHistoryJ : Storage → List Json
  | none => []
  | some (.corrupt _) => []
  | some (.valid j) =>
    match j with
    | .arr xs => xs
    | _ => []

/-- `storage.ts` `saveHistory` at JSON-value level: `JSON.stringify` of a list always
stores a well-formed JSON array document, replacing prior contents. -/
def saveHistoryJ (l : List Json) : Storage :=
  some (.valid (.arr l))

/-- `storage.ts` `appendResult`: load, `unshift` the new entry onto the front, save. -/
def appendResult (r : Json) (s : Storage) : Storage :=
  saveHistoryJ (r :: loadHistoryJ s)

/-- `r.id !== id` (strict inequality) is false exactly when the entry is an object whose
`id` property is a string equal to `id`. -/
def jsIdIs (j : Json) (id : String) : Bool :=
  match j with
  | .obj fs =>
    match jlookup fs "id" with
    | some (.str s) => s == id
    | _ => false
  | _ => false

/-- `storage.ts` `removeResult`: load, filter by `r.id !== id`, save. -/
def removeResultJ (id : String) (s : Storage) : Storage :=
  saveHistoryJ ((loadHistoryJ s).filter (fun j => !(jsIdIs j id)))

/-- `storage.ts` `clearHistory`: `localStorage.removeItem(KEY)`. -/
def clearHistoryS : Storage := none

/-- `saveHistory` applied to a typed `PovResult[]` list, as `useHistory` does:
`JSON.stringify` turns each entry into its JSON image. -/
def saveHistoryT (l : List PovResult) : Storage :=
  saveHistoryJ (l.map encodePovResult)

/-!
## The `useHistory` hook (`src/hooks/useHistory.ts`)

The hook keeps `items : PovResult[]` in React state; each mutator computes the next list,
writes it to storage with `saveHistory(next)` inside the same state update, and installs it
as the new state.  We model the pair (state, storage) and the three mutations.
-/

/-- The hook's observable state: the in-memory list and the localStorage slot. -/
structure HistoryState where
  items : List PovResult
  storage : Storage

/-- The three mutations `useHistory` exposes. -/
inductive HistoryOp where
  | add (item : PovResult)
  | remove (id : String)
  | clear

/-- One `useHistory` mutation: each branch computes `next`, persists it via
`saveHistory(next)` and returns it as the new in-memory list (`add` prepends;
`remove` filters by `p.id !== id`; `clear` saves `[]`). -/
def hookStep : HistoryOp → HistoryState → HistoryState
  | .add item, st =>
    let next := item :: st.items
    { items := next, storage := saveHistoryT next }
  | .remove id, st =>
    let next := st.items.filter (fun p => p.id != id)
    { items := next, storage := saveHistoryT next }
  | .clear, _ =>
    { items := [], storage := saveHistoryT [] }

/-!
## Generation endpoint (`src/app/api/generate/route.ts`)

The request body of `POST /api/generate` as destructured by the route.
-/

/-- The parsed JSON body of the route.  The destructuring cast is unchecked, so at runtime
`prompt` can be absent even though the annotation says `prompt: string` — indeed the
client may build `prompt: prompt.trim() || undefined`, which `JSON.stringify` drops.
An absent prompt is `none`. -/
structure PovApiRequest where
  prompt : Option String
  arrow : Option ArrowSelection
  map : MapStateSnapshot
  mapSnapshotDataUrl : Option String
deriving DecidableEq

/-- Route `escapeHtml`: `s.replace(/&/g, "&amp;").replace(/</g, "&lt;").replace(/>/g, "&gt;")`.
`replaceAllChar` performs one global single-character regex replacement pass
(the replacement text is never rescanned by the same pass, matching `String.replace` with a
global single-character pattern). -/
def replaceAllChar (c : Char) (r : List Char) : List Char → List Char
  | [] => []
  | x :: xs => (if x = c then r else [x]) ++ replaceAllChar c r xs

/-- Route `escapeHtml`: ampersands first, then angle brackets. -/
def escapeHtml (s : String) : String :=
  ⟨replaceAllChar '>' "&gt;".data
    (replaceAllChar '<' "&lt;".data
      (replaceAllChar '&' "&amp;".data s.data))⟩

/-- The template text of the mock SVG before the interpolated caption
(apostrophes written as `\x27`). -/
def svgPre : String :=
  "<svg xmlns=\x27http://www.w3.org/2000/svg\x27 width=\x27800\x27 height=\x27450\x27>\n    <rect width=\x27100%\x27 height=\x27100%\x27 fill=\x27#f3f4f6\x27/>\n    <text x=\x2750%\x27 y=\x2745%\x27 dominant-baseline=\x27middle\x27 text-anchor=\x27middle\x27 font-family=\x27sans-serif\x27 font-size=\x2720\x27 fill=\x27#374151\x27>Mock image</text>\n    <text x=\x2750%\x27 y=\x2755%\x27 dominant-baseline=\x27middle\x27 text-anchor=\x27middle\x27 font-family=\x27sans-serif\x27 font-size=\x2714\x27 fill=\x27#6b7280\x27>"

/-- The template text of the mock SVG after the interpolated caption. -/
def svgPost : String := "</text>\n  </svg>"

/-- The caption the route interpolates into the mock SVG:
`escapeHtml(text).slice(0, 90)`. -/
def mockCaption (text : String) : String :=
  (escapeHtml text).take 90

/-- The SVG document string built by `synthMockImage`'s template literal. -/
def synthMockSvg (text : String) : String :=
  svgPre ++ mockCaption text ++ svgPost

/-- The UTF-8 bytes of a string, as `Buffer.from(svg)` produces. -/
def utf8Bytes (s : String) : List Nat :=
  s.toUTF8.toList.map (fun b => b.toNat)

/-- The standard base64 alphabet used by `Buffer.toString("base64")`. -/
def base64Alphabet : List Char :=
  "ABCDEFGHIJKLMNOPQRSTUVWXYZabcdefghijklmnopqrstuvwxyz0123456789+/".data

/-- The base64 digit for a 6-bit value. -/
def b64Char (i : Nat) : Char := base64Alphabet.getD i '='

/-- Standard base64 encoding of a byte list, with `=` padding
(`Buffer.from(..).toString("base64")`). -/
def base64EncodeList : List Nat → List Char
  | [] => []
  | [b1] => [b64Char (b1 / 4), b64Char (b1 % 4 * 16), '=', '=']
  | [b1, b2] => [b64Char (b1 / 4), b64Char (b1 % 4 * 16 + b2 / 16), b64Char (b2 % 16 * 4), '=']
  | b1 :: b2 :: b3 :: rest =>
    b64Char (b1 / 4) :: b64Char (b1 % 4 * 16 + b2 / 16) :: b64Char (b2 % 16 * 4 + b3 / 64)
      :: b64Char (b3 % 64) :: base64EncodeList rest

/-- Index of a character in a list (first occurrence). -/
def idxOfChar (c : Char) : List Char → Option Nat
  | [] => none
  | x :: xs => if x = c then some 0 else (idxOfChar c xs).map (fun n => n + 1)

/-- The 6-bit value of a base64 digit. -/
def b64Index (c : Char) : Option Nat := idxOfChar c base64Alphabet

/-- Standard base64 decoding, inverse of `base64EncodeList`; used to show the data-URL
payload faithfully embeds the SVG bytes. -/
def base64DecodeList : List Char → Option (List Nat)
  | [] => some []
  | c1 :: c2 :: c3 :: c4 :: rest => do
    let i1 ← b64Index c1
    let i2 ← b64Index c2
    if c3 = '=' then
      if c4 = '=' ∧ rest = [] ∧ i2 % 16 = 0 then pure [i1 * 4 + i2 / 16] else none
    else do
      let i3 ← b64Index c3
      if c4 = '=' then
        if rest = [] ∧ i3 % 4 = 0 then pure [i1 * 4 + i2 / 16, i2 % 16 * 16 + i3 / 4] else none
      else do
        let i4 ← b64Index c4
        let tail ← base64DecodeList rest
        pure ((i1 * 4 + i2 / 16) :: (i2 % 16 * 16 + i3 / 4) :: (i3 % 4 * 64 + i4) :: tail)
  | _ => none

/-- Route `synthMockImage`: build the SVG, base64 its UTF-8 bytes, wrap as a data URL. -/
def synthMockImage (text : String) : String :=
  "data:image/svg+xml;base64," ++ String.mk (base64EncodeList (utf8Bytes (synthMockSvg text)))

/-- An `inlineData` payload of a model response part (both fields can be absent in the
untyped response, hence `Option`). -/
structure InlineData where
  mimeType : Option String
  data : Option String
deriving DecidableEq

/-- One `parts` element of a model response candidate. -/
structure RespPart where
  text : Option String
  inlineData : Option InlineData
deriving DecidableEq

/-- The route's find predicate `p.inlineData?.mimeType?.startsWith("image/")`. -/
def partIsImage (p : RespPart) : Bool :=
  match p.inlineData with
  | some d =>
    match d.mimeType with
    | some m => m.startsWith "image/"
    | none => false
  | none => false

/-- Locate the first image part and extract `(mimeType, data)` exactly as both call paths
do: `find` by mime type, then the truthiness test `if (part?.inlineData?.data)` (an empty
string is falsy and is rejected).  The `getD "undefined"` branch mirrors JavaScript
stringifying an absent mime type as `"undefined"`; it is unreachable because the find
predicate required a mime type. -/
def findImageData (parts : List RespPart) : Option (String × String) :=
  match parts.find? partIsImage with
  | some p =>
    match p.inlineData with
    | some d =>
      match d.data with
      | some s => if s = "" then none else some (d.mimeType.getD "undefined", s)
      | none => none
    | none => none
  | none => none

/-- Outcome of the primary SDK call `model.generateContent(...)`: it either throws, or
returns a response whose first candidate carries the given parts (an absent
`candidates?.[0]?.content?.parts` chain is the empty list). -/
inductive CallOutcome where
  | throws (msg : String)
  | responds (parts : List RespPart)
deriving DecidableEq

/-- Outcome of the REST `fetch` to `models/{model}:generateContent`: network throw,
non-ok HTTP status, or an ok JSON response carrying the given parts. -/
inductive RestOutcome where
  | throws (msg : String)
  | httpError (status : Nat)
  | respOk (parts : List RespPart)
deriving DecidableEq

/-- The image the primary SDK attempt yields, if any. -/
def primaryResult (p : CallOutcome) : Option (String × String) :=
  match p with
  | .throws _ => none
  | .responds parts => findImageData parts

/-- The `{id, imageDataUrl, model}` object the REST fallback resolves with. -/
structure RestOk where
  id : String
  imageDataUrl : String
  model : String
deriving DecidableEq

/-- Route `callImagesGenerateREST`: its own `try`/`catch` returns `null` on a throw or a
non-ok status (`if (!resp.ok) throw`), and `null` when the ok response has no usable
image part; otherwise it returns the reconstituted data URL. -/
def callImagesGenerateREST (freshId : String) (model : String) (r : RestOutcome) :
    Option RestOk :=
  match r with
  | .throws _ => none
  | .httpError _ => none
  | .respOk parts =>
    match findImageData parts with
    | some (m, d) => some ⟨freshId, "data:" ++ m ++ ";base64," ++ d, model⟩
    | none => none

/-- `const DEFAULT_MODEL = process.env.GEMINI_IMAGE_MODEL || "gemini-2.5-flash-image-preview"`. -/
def DEFAULT_MODEL (envOverride : Option String) : String :=
  envOverride.getD "gemini-2.5-flash-image-preview"

/-- The route's HTTP response: `Response.json({id, imageDataUrl, model})` on success, or
`new Response(JSON.stringify({error: msg}), {status})` on failure. -/
inductive ApiResponse where
  | ok (id imageDataUrl model : String)
  | err (status : Nat) (msg : String)
deriving DecidableEq

/-- The message of the `TypeError` thrown by `escapeHtml(undefined)` — calling
`undefined.replace` — when the body carries no prompt; it reaches the route's outer catch,
whose `e instanceof Error` branch returns `e.message`.  Wording as produced by V8/Node,
the runtime of Next.js API routes. -/
def undefinedReplaceTypeError : String :=
  "Cannot read properties of undefined (reading \x27replace\x27)"

/-- Route `POST`, with the outcomes of the two outbound calls supplied as oracles and the
`crypto.randomUUID()` value as `freshId`:
* no API key → `synthMockImage(prompt)`: with a prompt string present this responds with
  the mock image tagged `"mock"`; with the prompt absent, `escapeHtml(undefined)` throws a
  `TypeError` that the outer catch surfaces as a 500 with the engine's message;
* key present → primary SDK attempt; on a throw (silently caught) **or** a response with
  no usable inline image, fall through to the single REST fallback; if that also yields
  nothing, `throw new Error("Model did not return an image")`, which the outer catch
  surfaces as a 500 with that message. -/
def handleGenerate (apiKey : Option String) (modelId : String) (freshId : String)
    (req : PovApiRequest) (p : CallOutcome) (r : RestOutcome) : ApiResponse :=
  match apiKey with
  | none =>
    match req.prompt with
    | some prompt => .ok freshId (synthMockImage prompt) "mock"
    | none => .err 500 undefinedReplaceTypeError
  | some _ =>
    match primaryResult p with
    | some (m, d) => .ok freshId ("data:" ++ m ++ ";base64," ++ d) modelId
    | none =>
      match callImagesGenerateREST freshId modelId r with
      | some rr => .ok rr.id rr.imageDataUrl rr.model
      | none => .err 500 "Model did not return an image"

/-- Number of outbound service calls the keyed path performs: the primary SDK call always
happens; the REST fallback is performed exactly when the primary attempt yielded no usable
image (because it threw or because its response had no image part). -/
def keyedCalls (p : CallOutcome) : Nat :=
  match primaryResult p with
  | some _ => 1
  | none => 2

/-!
## Arrow-overlay geometry (`MapView.drawOverlay`)

The numeric core of `drawOverlay`, idealized over `ℝ`.  Both MapView variants share it
verbatim; the origin is the projected arrow location (or the canvas center), the length in
pixels is `Math.min(width, height) * 0.25`.
-/

/-- `const angle = (arrow.bearingDeg * Math.PI) / 180`. -/
noncomputable def toRadians (deg : ℝ) : ℝ := deg * Real.pi / 180

/-- `drawOverlay`'s pixel length of the arrow shaft: `Math.min(width, height) * 0.25`. -/
noncomputable def overlayLengthPx (width height : ℝ) : ℝ := min width height * 0.25

/-- `drawOverlay`'s endpoint:
`endX = origin.x + Math.sin(angle) * lengthPx`, `endY = origin.y - Math.cos(angle) * lengthPx`. -/
noncomputable def arrowEndpoint (origin : ℝ × ℝ) (bearingDeg lengthPx : ℝ) : ℝ × ℝ :=
  (origin.1 + Real.sin (toRadians bearingDeg) * lengthPx,
   origin.2 - Real.cos (toRadians bearingDeg) * lengthPx)

/-- `drawOverlay`'s arrowhead constants: `const headLen = 12; const headAngle = Math.PI / 8`. -/
noncomputable def headLen : ℝ := 12

/-- `Math.PI / 8`, i.e. 22.5 degrees. -/
noncomputable def headAngle : ℝ := Real.pi / 8

/-- `drawOverlay`'s left arrowhead point:
`leftX = endX - headLen * Math.sin(angle - headAngle)`,
`leftY = endY + headLen * Math.cos(angle - headAngle)`. -/
noncomputable def arrowHeadLeft (origin : ℝ × ℝ) (bearingDeg lengthPx : ℝ) : ℝ × ℝ :=
  ((arrowEndpoint origin bearingDeg lengthPx).1
      - headLen * Real.sin (toRadians bearingDeg - headAngle),
   (arrowEndpoint origin bearingDeg lengthPx).2
      + headLen * Real.cos (toRadians bearingDeg - headAngle))

/-- `drawOverlay`'s right arrowhead point:
`rightX = endX - headLen * Math.sin(angle + headAngle)`,
`rightY = endY + headLen * Math.cos(angle + headAngle)`. -/
noncomputable def arrowHeadRight (origin : ℝ × ℝ) (bearingDeg lengthPx : ℝ) : ℝ × ℝ :=
  ((arrowEndpoint origin bearingDeg lengthPx).1
      - headLen * Real.sin (toRadians bearingDeg + headAngle),
   (arrowEndpoint origin bearingDeg lengthPx).2
      + headLen * Real.cos (toRadians bearingDeg + headAngle))

/-- Euclidean distance between two screen points. -/
noncomputable def pointDist (p q : ℝ × ℝ) : ℝ :=
  Real.sqrt ((p.1 - q.1) ^ 2 + (p.2 - q.2) ^ 2)

/-!
## Click-to-bearing computation (`MapView.onMapClick`)
-/

/-- `Math.atan2 y x`, modelled as the argument of the complex number `x + y·i`
(range `(-π, π]`, `atan2 0 0 = 0`). -/
noncomputable def jsAtan2 (y x : ℝ) : ℝ := Complex.arg ⟨x, y⟩

/-- Truncation toward zero, the rounding JavaScript's `%` applies to the quotient. -/
noncomputable def realTrunc (x : ℝ) : ℝ :=
  if 0 ≤ x then ((⌊x⌋ : ℤ) : ℝ) else ((⌈x⌉ : ℤ) : ℝ)

/-- JavaScript's remainder operator `a % b`: `a - b * trunc(a / b)`. -/
noncomputable def jsMod (a b : ℝ) : ℝ := a - b * realTrunc (a / b)

/-- `onMapClick`'s bearing-from-two-points computation:
`Math.atan2((clickLng - centerLng) * Math.cos((centerLat * Math.PI) / 180), clickLat - centerLat)`
then `((bearing * 180) / Math.PI + 360) % 360`. -/
noncomputable def bearingFromClick (centerLat centerLng clickLat clickLng : ℝ) : ℝ :=
  jsMod (jsAtan2 ((clickLng - centerLng) * Real.cos (centerLat * Real.pi / 180))
           (clickLat - centerLat) * 180 / Real.pi + 360) 360

/-- Decode each element of a loaded JSON list as a `PovResult` (used to state the
field-for-field round trip of a whole stored history). -/
def strListDecode : List Json → Option (List PovResult)
  | [] => some []
  | x :: xs => do
    let r ← decodePovResult x
    let rest ← strListDecode xs
    pure (r :: rest)

/-- The `imageDataUrl` of a route response, when it is a success. -/
def responseImage : ApiResponse → Option String
  | .ok _ url _ => some url
  | .err _ _ => none

/-!
## Shared lemmas
-/

/-- Decoding inverts encoding for `ArrowSelection`. -/
theorem decodeArrow_encode (a : ArrowSelection) : decodeArrow (encodeArrow a) = some a := rfl

/-- Decoding inverts encoding for `Bounds`. -/
theorem decodeBounds_encode (b : Bounds) : decodeBounds (encodeBounds b) = some b := rfl

/-- Decoding inverts encoding for the center object. -/
theorem decodeLatLng_encode (c : LatLng) : decodeLatLng (encodeLatLng c) = some c := rfl

/-- Decoding inverts encoding for `MapStateSnapshot`. -/
theorem decodeMapState_encode (m : MapStateSnapshot) :
    decodeMapState (encodeMapState m) = some m := rfl

/-- Decoding inverts encoding for `PovRequest`. -/
theorem decodeRequest_encode (r : PovRequest) : decodeRequest (encodeRequest r) = some r := rfl

/-- Reading back a string array. -/
theorem strListM_map (ls : List String) : strListM (ls.map Json.str) = some ls := by
  induction ls with
  | nil => rfl
  | cons x xs ih => simp [strListM, asStr, ih]

/-- Decoding inverts encoding for `PovResult`, including the optional fields. -/
theorem decodePovResult_encode (r : PovResult) : decodePovResult (encodePovResult r) = some r := by
  rcases r with ⟨i, c, rq, ms, im, mo, sl⟩
  rcases mo with _ | m <;> rcases sl with _ | ls <;>
    simp [decodePovResult, encodePovResult, optField, jlookup, List.find?,
      decodeRequest_encode, asStr, asNum, asStrList, strListM_map]

/-- Every base64 digit decodes back to its 6-bit value. -/
theorem b64Index_b64Char : ∀ i : Nat, i < 64 → b64Index (b64Char i) = some i := by decide

/-- No base64 digit is the padding character. -/
theorem b64Char_ne_pad : ∀ i : Nat, i < 64 → b64Char i ≠ '=' := by decide

/-- Base64 decoding inverts base64 encoding on byte lists. -/
theorem base64_roundtrip : ∀ l : List Nat, (∀ b ∈ l, b < 256) →
    base64DecodeList (base64EncodeList l) = some l
  | [], _ => rfl
  | [b1], h => by
    have hb1 : b1 < 256 := h b1 (by simp)
    have e1 := b64Index_b64Char (b1 / 4) (by omega)
    have e2 := b64Index_b64Char (b1 % 4 * 16) (by omega)
    have m2 : b1 % 4 * 16 % 16 = 0 := by omega
    simp [base64EncodeList, base64DecodeList, e1, e2, m2, Option.bind_eq_bind,
      Option.some_bind, pure]
    omega
  | [b1, b2], h => by
    have hb1 : b1 < 256 := h b1 (by simp)
    have hb2 : b2 < 256 := h b2 (by simp)
    have e1 := b64Index_b64Char (b1 / 4) (by omega)
    have e2 := b64Index_b64Char (b1 % 4 * 16 + b2 / 16) (by omega)
    have e3 := b64Index_b64Char (b2 % 16 * 4) (by omega)
    have ne3 := b64Char_ne_pad (b2 % 16 * 4) (by omega)
    have m3 : b2 % 16 * 4 % 4 = 0 := by omega
    simp [base64EncodeList, base64DecodeList, e1, e2, e3, ne3, m3, Option.bind_eq_bind,
      Option.some_bind, pure]
    omega
  | b1 :: b2 :: b3 :: rest, h => by
    have hb1 : b1 < 256 := h b1 (by simp)
    have hb2 : b2 < 256 := h b2 (by simp)
    have hb3 : b3 < 256 := h b3 (by simp)
    have ih := base64_roundtrip rest (fun b hb => h b (by simp [hb]))
    have e1 := b64Index_b64Char (b1 / 4) (by omega)
    have e2 := b64Index_b64Char (b1 % 4 * 16 + b2 / 16) (by omega)
    have e3 := b64Index_b64Char (b2 % 16 * 4 + b3 / 64) (by omega)
    have e4 := b64Index_b64Char (b3 % 64) (by omega)
    have ne3 := b64Char_ne_pad (b2 % 16 * 4 + b3 / 64) (by omega)
    have ne4 := b64Char_ne_pad (b3 % 64) (by omega)
    simp [base64EncodeList, base64DecodeList, e1, e2, e3, e4, ne3, ne4, ih,
      Option.bind_eq_bind, Option.some_bind, pure]
    omega

/-- UTF-8 bytes are below 256. -/
theorem utf8Bytes_lt (s : String) : ∀ b ∈ utf8Bytes s, b < 256 := by
  intro b hb
  simp only [utf8Bytes, List.mem_map] at hb
  obtain ⟨u, _, rfl⟩ := hb
  exact u.toNat_lt

/-!
## Sample values used by witnesses and counterexamples
-/

/-- A concrete map snapshot. -/
def sampleMapState : MapStateSnapshot :=
  ⟨12, ⟨(37:ℚ) + 7749/10000, -((122:ℚ) + 4194/10000)⟩, ⟨38, 37, -122, -123⟩, "positron"⟩

/-- A concrete arrow selection. -/
def sampleArrow : ArrowSelection := ⟨(37:ℚ) + 78/100, -((122:ℚ) + 41/100), 90, 150⟩

/-- A concrete API request body. -/
def sampleApiRequest : PovApiRequest :=
  ⟨some "busy bazaar street at dusk", some sampleArrow, sampleMapState, none⟩

/-- A concrete API request body whose `prompt` field is absent (as the client sends when
the caption is empty: `prompt: prompt.trim() || undefined`). -/
def promptlessApiRequest : PovApiRequest := ⟨none, some sampleArrow, sampleMapState, none⟩

/-- A model response carrying only a text part, no inline image. -/
def textOnlyParts : List RespPart := [⟨some "no image, only words", none⟩]

/-- A concrete stored history entry. -/
def samplePovResult : PovResult :=
  ⟨"id-1", 1700000000000, ⟨"street", sampleArrow, sampleMapState⟩, "data:image/jpeg;base64,AA",
    "data:image/png;base64,BB", some "mock", none⟩

/-!
## Claims
-/

/-- **C1 (code bug).** The keyless path is *not* total: on a request whose body carries
no `prompt` (which the client sends whenever the caption is empty), `escapeHtml(undefined)`
throws a `TypeError` and the route returns a 500 — contradicting the spec's "this path
never fails".  First conjunct: the code evaluated at the failing input.  Remaining
conjuncts: for every request that *does* carry a prompt string, the mock path succeeds
with `model = "mock"`, the image being the data URL of the base64-encoded placeholder SVG,
which embeds between the fixed template halves exactly the caption
`escapeHtml(prompt).slice(0, 90)` — the prompt with `&`, `<`, `>` escaped, truncated to 90
characters — and whose base64 payload decodes back to exactly the SVG bytes. -/
theorem c1_promptless_mock_request_fails :
    handleGenerate none (DEFAULT_MODEL none) "uid" promptlessApiRequest
        (CallOutcome.throws "unused") (RestOutcome.throws "unused")
      = ApiResponse.err 500 undefinedReplaceTypeError
    ∧ ∀ (modelEnv : Option String) (freshId prompt : String)
        (arrow : Option ArrowSelection) (map : MapStateSnapshot)
        (snap : Option String) (p : CallOutcome) (r : RestOutcome),
        handleGenerate none (DEFAULT_MODEL modelEnv) freshId
            ⟨some prompt, arrow, map, snap⟩ p r
          = ApiResponse.ok freshId (synthMockImage prompt) "mock"
        ∧ synthMockImage prompt
            = "data:image/svg+xml;base64,"
                ++ String.mk (base64EncodeList (utf8Bytes (synthMockSvg prompt)))
        ∧ synthMockSvg prompt = svgPre ++ (escapeHtml prompt).take 90 ++ svgPost
        ∧ base64DecodeList (base64EncodeList (utf8Bytes (synthMockSvg prompt)))
            = some (utf8Bytes (synthMockSvg prompt)) :=
  ⟨rfl, fun _ _ _ _ _ _ _ _ => ⟨rfl, rfl, rfl, base64_roundtrip _ (utf8Bytes_lt _)⟩⟩

/-- **C2, counterexample.** When both the primary attempt and the REST fallback return
successful-looking responses without an inline image, the route fails with the message
`"Model did not return an image"` (capital `M`), not `"model did not return an image"` as
the claim states. -/
theorem c2_counterexample_message_case :
    handleGenerate (some "key") (DEFAULT_MODEL none) "uid" sampleApiRequest
        (CallOutcome.responds textOnlyParts) (RestOutcome.respOk textOnlyParts)
      = ApiResponse.err 500 "Model did not return an image"
    ∧ handleGenerate (some "key") (DEFAULT_MODEL none) "uid" sampleApiRequest
        (CallOutcome.responds textOnlyParts) (RestOutcome.respOk textOnlyParts)
      ≠ ApiResponse.err 500 "model did not return an image" :=
  ⟨rfl, by decide⟩

/-- **C2, amended.** With a credential configured, `POST` makes at most two attempts (the
primary SDK call, plus the REST fallback exactly when the primary yields no usable image);
if both attempts fail — by throwing, by a non-ok status, or by a successful-looking
response lacking an inline image payload — the whole operation fails with status 500 and
message `"Model did not return an image"`, with no further retries; and when the primary
attempt yields an image, the route succeeds after a single call. -/
theorem c2_two_attempts_then_fail (key modelId freshId : String) (req : PovApiRequest)
    (p : CallOutcome) (r : RestOutcome) :
    keyedCalls p ≤ 2
    ∧ (primaryResult p = none → callImagesGenerateREST freshId modelId r = none →
        handleGenerate (some key) modelId freshId req p r
          = ApiResponse.err 500 "Model did not return an image")
    ∧ (∀ m d, primaryResult p = some (m, d) →
        keyedCalls p = 1
        ∧ handleGenerate (some key) modelId freshId req p r
            = ApiResponse.ok freshId ("data:" ++ m ++ ";base64," ++ d) modelId) := by
  refine ⟨?_, ?_, ?_⟩
  · unfold keyedCalls
    cases primaryResult p <;> simp
  · intro h1 h2
    unfold handleGenerate
    rw [h1, h2]
  · intro m d hmd
    unfold keyedCalls handleGenerate
    rw [hmd]
    exact ⟨rfl, rfl⟩

/-- Witness for the amended C2: concrete run where the primary response has no image and
the REST fallback throws — the route surfaces the 500 failure. -/
theorem c2_two_attempts_witness :
    handleGenerate (some "key") (DEFAULT_MODEL none) "uid" sampleApiRequest
        (CallOutcome.responds textOnlyParts) (RestOutcome.throws "network down")
      = ApiResponse.err 500 "Model did not return an image" :=
  (c2_two_attempts_then_fail "key" (DEFAULT_MODEL none) "uid" sampleApiRequest
    (CallOutcome.responds textOnlyParts) (RestOutcome.throws "network down")).2.1 rfl rfl

/-- **C5.** `add` followed by `load` returns the new entry first with all previously
stored entries following in their prior order — both at the `useHistory` level and at the
`storage.ts` `appendResult` level for an arbitrary stored list. -/
theorem c5_add_prepends (item : PovResult) (st : HistoryState) (r : Json) (s : Storage) :
    (hookStep (.add item) st).items = item :: st.items
    ∧ loadHistoryJ (hookStep (.add item) st).storage
        = encodePovResult item :: st.items.map encodePovResult
    ∧ loadHistoryJ (appendResult r s) = r :: loadHistoryJ s :=
  ⟨rfl, rfl, rfl⟩

/-- **C6.** If the history list contains exactly one entry with the given id, `remove(id)`
followed by `load` omits exactly that entry and preserves the relative order of the rest. -/
theorem c6_remove_omits_exactly (st : HistoryState) (id : String)
    (xs ys : List PovResult) (e : PovResult)
    (hsplit : st.items = xs ++ e :: ys) (hid : e.id = id)
    (hxs : ∀ p ∈ xs, p.id ≠ id) (hys : ∀ p ∈ ys, p.id ≠ id) :
    (hookStep (.remove id) st).items = xs ++ ys
    ∧ loadHistoryJ (hookStep (.remove id) st).storage = (xs ++ ys).map encodePovResult := by
  have hfilter : st.items.filter (fun p => p.id != id) = xs ++ ys := by
    rw [hsplit, List.filter_append]
    have h1 : xs.filter (fun p => p.id != id) = xs :=
      List.filter_eq_self.mpr (fun p hp => by simpa using hxs p hp)
    have h2 : (e :: ys).filter (fun p => p.id != id) = ys := by
      rw [List.filter_cons_of_neg (by simp [hid])]
      exact List.filter_eq_self.mpr (fun p hp => by simpa using hys p hp)
    rw [h1, h2]
  constructor
  · exact hfilter
  · show loadHistoryJ (saveHistoryT (st.items.filter (fun p => p.id != id))) = _
    rw [hfilter]
    rfl

/-- Witness for C6 at a concrete one-element history. -/
theorem c6_remove_witness :
    (hookStep (.remove "id-1") ⟨[samplePovResult], saveHistoryT [samplePovResult]⟩).items
        = ([] : List PovResult) ++ []
    ∧ loadHistoryJ (hookStep (.remove "id-1")
          ⟨[samplePovResult], saveHistoryT [samplePovResult]⟩).storage
        = (([] : List PovResult) ++ []).map encodePovResult :=
  c6_remove_omits_exactly ⟨[samplePovResult], saveHistoryT [samplePovResult]⟩ "id-1"
    [] [] samplePovResult rfl rfl (by simp) (by simp)

/-- **C7.** `load` never fails: a missing stored value, a stored string that is not valid
JSON, and valid JSON that is not an array all yield the empty list. -/
theorem c7_load_tolerant (s : Storage)
    (h : s = none ∨ (∃ raw, s = some (.corrupt raw))
        ∨ (∃ j, s = some (.valid j) ∧ jsonIsArray j = false)) :
    loadHistoryJ s = [] := by
  rcases h with rfl | ⟨raw, rfl⟩ | ⟨j, rfl, hj⟩
  · rfl
  · rfl
  · cases j <;> simp_all [jsonIsArray, loadHistoryJ]

/-- Witness for C7: a corrupt stored string loads as the empty history. -/
theorem c7_load_witness : loadHistoryJ (some (StoredBlob.corrupt "not json")) = [] :=
  c7_load_tolerant _ (Or.inr (Or.inl ⟨"not json", rfl⟩))

/-- **C8.** After every `useHistory` mutation the persisted representation equals the
in-memory representation: the step writes the full updated list to storage in the same
update, so reloading storage yields exactly the encoded in-memory list. -/
theorem c8_storage_in_sync (op : HistoryOp) (st : HistoryState) :
    loadHistoryJ (hookStep op st).storage = (hookStep op st).items.map encodePovResult := by
  cases op <;> rfl

/-- **C9.** Serialization round-trip: every `PovResult` decodes back field-for-field from
its JSON image, and for every history list, `save` followed by `load` returns the same
list (as JSON values, and field-for-field after decoding). -/
theorem c9_serialization_roundtrip :
    (∀ r : PovResult, decodePovResult (encodePovResult r) = some r)
    ∧ (∀ l : List PovResult,
        loadHistoryJ (saveHistoryT l) = l.map encodePovResult
        ∧ strListDecode (loadHistoryJ (saveHistoryT l)) = some l) := by
  refine ⟨decodePovResult_encode, fun l => ⟨rfl, ?_⟩⟩
  show strListDecode (l.map encodePovResult) = some l
  induction l with
  | nil => rfl
  | cons x xs ih => simp [strListDecode, decodePovResult_encode, ih]

/-- **C10.** In mock mode the generated image depends only on the prompt: two requests
with equal prompts but arbitrary differing arrows, map states, snapshot attachments (and
oracle outcomes) receive identical `imageDataUrl` values. -/
theorem c10_mock_depends_only_on_prompt (modelEnv : Option String)
    (fid1 fid2 : String) (req1 req2 : PovApiRequest)
    (p1 p2 : CallOutcome) (r1 r2 : RestOutcome)
    (hprompt : req1.prompt = req2.prompt) :
    responseImage (handleGenerate none (DEFAULT_MODEL modelEnv) fid1 req1 p1 r1)
      = responseImage (handleGenerate none (DEFAULT_MODEL modelEnv) fid2 req2 p2 r2) := by
  cases hp : req1.prompt with
  | none =>
    have hq : req2.prompt = none := hprompt.symm.trans hp
    simp [handleGenerate, responseImage, hp, hq]
  | some pr =>
    have hq : req2.prompt = some pr := hprompt.symm.trans hp
    simp [handleGenerate, responseImage, hp, hq]

/-- Witness for C10: equal prompts, different arrow/map snapshot, same mock image. -/
theorem c10_mock_witness :
    responseImage (handleGenerate none (DEFAULT_MODEL none) "a" sampleApiRequest
        (CallOutcome.responds textOnlyParts) (RestOutcome.throws "x"))
      = responseImage (handleGenerate none (DEFAULT_MODEL none) "b"
          ⟨some "busy bazaar street at dusk", none, sampleMapState,
            some "data:image/jpeg;base64,AA"⟩
          (CallOutcome.throws "y") (RestOutcome.respOk textOnlyParts)) :=
  c10_mock_depends_only_on_prompt none "a" "b" sampleApiRequest
    ⟨some "busy bazaar street at dusk", none, sampleMapState, some "data:image/jpeg;base64,AA"⟩
    (CallOutcome.responds textOnlyParts) (CallOutcome.throws "y")
    (RestOutcome.throws "x") (RestOutcome.respOk textOnlyParts) rfl

/-- Displacement of fixed length along a bearing has that length (geometry helper). -/
theorem pointDist_arrowEndpoint (o : ℝ × ℝ) (b L : ℝ) (hL : 0 ≤ L) :
    pointDist (arrowEndpoint o b L) o = L := by
  unfold pointDist arrowEndpoint
  have hkey : (o.1 + Real.sin (toRadians b) * L - o.1) ^ 2
      + (o.2 - Real.cos (toRadians b) * L - o.2) ^ 2 = L ^ 2 := by
    have hs := Real.sin_sq_add_cos_sq (toRadians b)
    nlinarith [hs]
  rw [hkey, Real.sqrt_sq hL]

/-- The left arrowhead point is the 12-pixel displacement from the endpoint along
bearing `b + 180 − 22.5` (geometry helper). -/
theorem arrowHeadLeft_as_bearing (o : ℝ × ℝ) (b L : ℝ) :
    arrowHeadLeft o b L = arrowEndpoint (arrowEndpoint o b L) (b + 157.5) 12 := by
  have hang : toRadians (b + 157.5) = (toRadians b - headAngle) + Real.pi := by
    unfold toRadians headAngle
    ring
  have hs : Real.sin (toRadians (b + 157.5)) = -Real.sin (toRadians b - headAngle) := by
    rw [hang, Real.sin_add_pi]
  have hc : Real.cos (toRadians (b + 157.5)) = -Real.cos (toRadians b - headAngle) := by
    rw [hang, Real.cos_add_pi]
  unfold arrowHeadLeft
  unfold arrowEndpoint
  rw [hs, hc]
  unfold headLen
  simp only [Prod.mk.injEq]
  constructor <;> ring

/-- The right arrowhead point is the 12-pixel displacement from the endpoint along
bearing `b + 180 + 22.5` (geometry helper). -/
theorem arrowHeadRight_as_bearing (o : ℝ × ℝ) (b L : ℝ) :
    arrowHeadRight o b L = arrowEndpoint (arrowEndpoint o b L) (b + 202.5) 12 := by
  have hang : toRadians (b + 202.5) = (toRadians b + headAngle) + Real.pi := by
    unfold toRadians headAngle
    ring
  have hs : Real.sin (toRadians (b + 202.5)) = -Real.sin (toRadians b + headAngle) := by
    rw [hang, Real.sin_add_pi]
  have hc : Real.cos (toRadians (b + 202.5)) = -Real.cos (toRadians b + headAngle) := by
    rw [hang, Real.cos_add_pi]
  unfold arrowHeadRight
  unfold arrowEndpoint
  rw [hs, hc]
  unfold headLen
  simp only [Prod.mk.injEq]
  constructor <;> ring

/-- **C3.** For every origin, bearing in `[0,360)` and positive pixel length: the endpoint
is `origin + length·(sin bearing, −cos bearing)` and lies at exactly that pixel distance
from the origin, and the two arrowhead points lie exactly 12 px from the endpoint at the
backward bearings offset ±22.5° (`b + 180 − 22.5` and `b + 180 + 22.5`). -/
theorem c3_arrow_overlay_geometry (origin : ℝ × ℝ) (b L : ℝ)
    (hb0 : 0 ≤ b) (hb1 : b < 360) (hL : 0 < L) :
    arrowEndpoint origin b L
        = (origin.1 + L * Real.sin (toRadians b), origin.2 - L * Real.cos (toRadians b))
    ∧ pointDist (arrowEndpoint origin b L) origin = L
    ∧ pointDist (arrowHeadLeft origin b L) (arrowEndpoint origin b L) = 12
    ∧ pointDist (arrowHeadRight origin b L) (arrowEndpoint origin b L) = 12
    ∧ arrowHeadLeft origin b L = arrowEndpoint (arrowEndpoint origin b L) (b + 157.5) 12
    ∧ arrowHeadRight origin b L = arrowEndpoint (arrowEndpoint origin b L) (b + 202.5) 12 := by
  refine ⟨?_, pointDist_arrowEndpoint origin b L hL.le, ?_, ?_,
    arrowHeadLeft_as_bearing origin b L, arrowHeadRight_as_bearing origin b L⟩
  · unfold arrowEndpoint
    simp only [Prod.mk.injEq]
    constructor <;> ring
  · rw [arrowHeadLeft_as_bearing]
    exact pointDist_arrowEndpoint _ _ 12 (by norm_num)
  · rw [arrowHeadRight_as_bearing]
    exact pointDist_arrowEndpoint _ _ 12 (by norm_num)

/-- Witness for C3: bearing 0, length 1 — the endpoint is exactly 1 px from the origin. -/
theorem c3_arrow_witness :
    (0:ℝ) ≤ 0 ∧ (0:ℝ) < 360 ∧ (0:ℝ) < 1
    ∧ pointDist (arrowEndpoint ((0:ℝ), (0:ℝ)) 0 1) ((0:ℝ), (0:ℝ)) = 1 :=
  ⟨le_refl 0, by norm_num, by norm_num,
    (c3_arrow_overlay_geometry ((0:ℝ), (0:ℝ)) 0 1 (le_refl 0) (by norm_num) (by norm_num)).2.1⟩

/-- JavaScript `a % 360` for positive `a` lies in `[0, 360)` (remainder helper). -/
theorem jsMod_360_bounds (a : ℝ) (ha : 0 < a) : 0 ≤ jsMod a 360 ∧ jsMod a 360 < 360 := by
  unfold jsMod realTrunc
  have hq : 0 ≤ a / 360 := by positivity
  rw [if_pos hq]
  have h1 : ((⌊a / 360⌋ : ℤ) : ℝ) ≤ a / 360 := Int.floor_le _
  have h2 : a / 360 < ((⌊a / 360⌋ : ℤ) : ℝ) + 1 := Int.lt_floor_add_one _
  have h1' : ((⌊a / 360⌋ : ℤ) : ℝ) * 360 ≤ a := by
    rw [← le_div_iff (by norm_num : (0:ℝ) < 360)]
    exact h1
  have h2' : a < (((⌊a / 360⌋ : ℤ) : ℝ) + 1) * 360 := by
    rw [← div_lt_iff (by norm_num : (0:ℝ) < 360)]
    exact h2
  constructor <;> nlinarith

/-- The degree conversion plus 360 of any `atan2` value is positive (because the
`atan2` range is `(-π, π]`). -/
theorem atan2_deg_plus_360_pos (y x : ℝ) : 0 < jsAtan2 y x * 180 / Real.pi + 360 := by
  have hpi : 0 < Real.pi := Real.pi_pos
  have harg : -Real.pi < jsAtan2 y x := Complex.neg_pi_lt_arg _
  have hdeg : -180 < jsAtan2 y x * 180 / Real.pi := by
    rw [lt_div_iff hpi]
    nlinarith
  linarith

/-- **C4.** For every map center and clicked point, the click-derived bearing equals
`atan2` of the cosine-corrected longitude delta versus the latitude delta, converted to
degrees with `+360` then JavaScript `% 360` applied — and the result always lies in
`[0, 360)`. -/
theorem c4_click_bearing (centerLat centerLng clickLat clickLng : ℝ) :
    bearingFromClick centerLat centerLng clickLat clickLng
        = jsMod (jsAtan2 ((clickLng - centerLng) * Real.cos (centerLat * Real.pi / 180))
                   (clickLat - centerLat) * 180 / Real.pi + 360) 360
    ∧ 0 ≤ bearingFromClick centerLat centerLng clickLat clickLng
    ∧ bearingFromClick centerLat centerLng clickLat clickLng < 360 := by
  refine ⟨rfl, ?_, ?_⟩
  · exact (jsMod_360_bounds _ (atan2_deg_plus_360_pos _ _)).1
  · exact (jsMod_360_bounds _ (atan2_deg_plus_360_pos _ _)).2
